import Mathlib

/-!
Shallow embedding of the HK-EdTech backend sources: the three OCR engine
adapters (GoogleCloudVisionAPI.detect_document, EasyOCRProcessor.process_image,
PyTesseractOCR.process_image_with_confidence), the OCRComparator (run_all,
export_to_csv, export_to_json, print_summary) from src/ocrs/BestOCR.py, and the
authentication dependency (get_public_key, get_current_user) from src/deps.py.

Python floats are modelled as rationals, Python strings as Lean strings,
dictionaries with a fixed key set as structures (a key that may be absent
becomes an Option field), and calls into the external OCR/JWT libraries as
explicit inputs of type Except carrying either the library value or the
message of the exception the call raised.
-/

/-- Arithmetic mean sum(l)/len(l) as written in the source. -/
def mean (l : List ℚ) : ℚ := l.sum / (l.length : ℚ)

/-- Python str.strip(): drop leading and trailing whitespace. -/
def pyStrip (s : String) : String :=
  ⟨((s.data.dropWhile Char.isWhitespace).reverse.dropWhile Char.isWhitespace).reverse⟩

/-! ## Google Cloud Vision adapter (src/ocrs/GoogleCloudVisionAPI.py)

The response of document_text_detection is a tree: pages, blocks, paragraphs,
words, symbols, each level carrying a float confidence. detect_document walks
this tree with the recursive collect_confidences helper, gathering every
confidence attribute it meets, and sets average_confidence to their mean, or
to None when the collection is empty. -/

structure GSymbol where
  text : String
  confidence : ℚ
deriving DecidableEq

structure GWord where
  symbols : List GSymbol
  confidence : ℚ
deriving DecidableEq

structure GPara where
  words : List GWord
  confidence : ℚ
deriving DecidableEq

structure GBlock where
  paragraphs : List GPara
  confidence : ℚ
deriving DecidableEq

structure GPage where
  blocks : List GBlock
  confidence : ℚ
deriving DecidableEq

/-- The full_text_annotation of the Vision response: its page tree and the
already-assembled full text. The annotation object itself carries no
confidence attribute, so collect_confidences starts at the pages. -/
structure TextAnnot where
  pages : List GPage
  text : String
deriving DecidableEq

namespace GoogleCloudVisionAPI

def symbolConfs (s : GSymbol) : List ℚ := [s.confidence]

def wordConfs (w : GWord) : List ℚ := w.confidence :: w.symbols.flatMap symbolConfs

def paraConfs (p : GPara) : List ℚ := p.confidence :: p.words.flatMap wordConfs

def blockConfs (b : GBlock) : List ℚ := b.confidence :: b.paragraphs.flatMap paraConfs

def pageConfs (pg : GPage) : List ℚ := pg.confidence :: pg.blocks.flatMap blockConfs

/-- all_confidences collected by collect_confidences over the annotation tree. -/
def annotConfs (a : TextAnnot) : List ℚ := a.pages.flatMap pageConfs

structure GCVResult where
  full_text : String
  average_confidence : Option ℚ
deriving DecidableEq

/-- detect_document, applied to the full_text_annotation of a response that
arrived without an error message: the structured result dictionary, keeping
only the fields the comparator reads. average_confidence is
sum(all_confidences)/len(all_confidences) if all_confidences else None. -/
def detect_document (a : TextAnnot) : GCVResult :=
  let cs := annotConfs a
  { full_text := a.text
    average_confidence := if cs.isEmpty then none else some (mean cs) }

end GoogleCloudVisionAPI

/-! ## EasyOCR adapter (src/ocrs/models/EasyOCR.py) -/

/-- One element of reader.readtext output: (bounding box, text, confidence). -/
structure EasyDetection where
  bbox : List (Int × Int)
  text : String
  confidence : ℚ
deriving DecidableEq

namespace EasyOCRProcessor

/-- process_image, applied to the list reader.readtext returned: no detections
give (0.0, []); otherwise the mean of the confidences and the list of texts. -/
def process_image (results : List EasyDetection) : ℚ × List String :=
  if results.isEmpty then (0, [])
  else (mean (results.map (·.confidence)), results.map (·.text))

end EasyOCRProcessor

/-! ## PyTesseract adapter (src/ocrs/models/PyTesseract.py) -/

/-- Row i of the image_to_data dictionary (the parallel lists, one index). -/
structure TessRow where
  level : Int
  page_num : Int
  block_num : Int
  par_num : Int
  line_num : Int
  word_num : Int
  left : Int
  top : Int
  width : Int
  height : Int
  conf : ℚ
  text : String
deriving DecidableEq

structure TessOut where
  data : List TessRow
  average_confidence : ℚ
deriving DecidableEq

namespace PyTesseractOCR

/-- The parse-and-filter loop of process_image_with_confidence: keep a row
when its stripped text is nonempty and its confidence reaches the threshold;
the kept row carries the stripped text. conf_scores is exactly the confs of
the kept rows. -/
def keptRows (rows : List TessRow) (min_confidence : ℚ) : List TessRow :=
  rows.filterMap fun r =>
    let t := pyStrip r.text
    if t ≠ "" ∧ min_confidence ≤ r.conf then some { r with text := t } else none

/-- process_image_with_confidence: any exception inside the try block
(missing file, decode failure, missing tesseract binary) is caught and turned
into None; otherwise the filtered rows with their average confidence, with
average 0.0 when no row survived. -/
def process_image_with_confidence (call : Except String (List TessRow))
    (min_confidence : ℚ) : Option TessOut :=
  match call with
  | .error _ => none
  | .ok rows =>
    let parsed := keptRows rows min_confidence
    if parsed.isEmpty then some { data := [], average_confidence := 0 }
    else some { data := parsed, average_confidence := mean (parsed.map (·.conf)) }

end PyTesseractOCR

/-! ## OCRComparator (src/ocrs/BestOCR.py)

One entry of self.results. run_all stores, per engine, either a success
dictionary with keys confidence, full_text, status, or a failure dictionary
with only confidence and status; full_text is therefore an Option. The
confidence key is always present; its value is Option-typed because the
Google Cloud Vision success dictionary transiently holds None when the
collection came back empty (that transient entry is then overwritten, see
gcvEntry), and print_summary must be a total function of any dictionary. -/
structure EngineResult where
  confidence : Option ℚ
  full_text : Option String
  status : String
deriving DecidableEq

/-- The failure entry written by every except branch of run_all:
confidence 0.0 and status beginning error followed by the message. -/
def failEntry (e : String) : EngineResult :=
  { confidence := some 0, full_text := none, status := "error: " ++ e }

/-- The final Google Cloud Vision entry of a run whose detect_document call
returned. The block stores a success dictionary and then, still inside the
try, logs the confidence with the float format specifier .4f; when
average_confidence is None that f-string raises TypeError (unsupported
format string passed to NoneType.__format__) and the except branch
overwrites the stored success entry with the corresponding failure entry, so
a success record with a null confidence never survives in self.results. -/
def gcvEntry (r : GoogleCloudVisionAPI.GCVResult) : EngineResult :=
  match r.average_confidence with
  | some c => { confidence := some c, full_text := some r.full_text
                status := "success" }
  | none => failEntry "unsupported format string passed to NoneType.__format__"

/-- run_all from BestOCR.py. Its three external calls are inputs: the Google
Cloud Vision annotation (or the message of the exception the block raised),
the EasyOCR readtext list (or an exception message, covering reader
construction too), and the raw image_to_data rows handed to the PyTesseract
adapter (or the message of the exception it caught internally). The EasyOCR
and PyTesseract confidences are always floats, so their .4f log lines cannot
raise; the Google Cloud Vision entry goes through gcvEntry. The returned
association list models self.results with its insertion order. -/
def run_all (gcv : Except String TextAnnot)
    (easy : Except String (List EasyDetection))
    (tess : Except String (List TessRow)) : List (String × EngineResult) :=
  let g : EngineResult :=
    match gcv with
    | .ok a => gcvEntry (GoogleCloudVisionAPI.detect_document a)
    | .error e => failEntry e
  let ez : EngineResult :=
    match easy with
    | .ok dets =>
      let p := EasyOCRProcessor.process_image dets
      { confidence := some p.1, full_text := some (String.intercalate " " p.2)
        status := "success" }
    | .error e => failEntry e
  let t : EngineResult :=
    match PyTesseractOCR.process_image_with_confidence tess 0 with
    | none => failEntry "PyTesseract returned None"
    | some r =>
      { confidence := some r.average_confidence
        full_text := some (String.intercalate " " (r.data.map (·.text)))
        status := "success" }
  [("GoogleCloudVision", g), ("EasyOCR", ez), ("PyTesseract", t)]

/-- One row of the DataFrame written by export_to_csv. -/
structure CsvRow where
  image_file : String
  ocr_model : String
  confidence_score : Option ℚ
  status : String
  extracted_text_preview : String
  timestamp : String
deriving DecidableEq

/-- Column order of the CSV header, i.e. the key order of the row dicts. -/
def csvHeader : List String :=
  ["image_file", "ocr_model", "confidence_score", "status",
   "extracted_text_preview", "timestamp"]

/-- The row dict built for one results entry inside export_to_csv: the stored
confidence and status, and the first 100 characters of full_text, with the
empty string standing in when the full_text key is absent. -/
def csvRowOf (image_name now : String) (nr : String × EngineResult) : CsvRow :=
  { image_file := image_name
    ocr_model := nr.1
    confidence_score := nr.2.confidence
    status := nr.2.status
    extracted_text_preview := (nr.2.full_text.getD "").take 100
    timestamp := now }

/-- export_to_csv: with an empty results dict it warns and returns None,
writing nothing; otherwise the written file holds one row per engine in
results order. -/
def export_to_csv (image_name : String) (results : List (String × EngineResult))
    (now : String) : Option (List CsvRow) :=
  if results.isEmpty then none
  else some (results.map (csvRowOf image_name now))

/-- The JSON values json.dump can receive here. -/
inductive Json where
  | str : String → Json
  | num : ℚ → Json
  | null : Json
  | obj : List (String × Json) → Json

/-- A stored confidence value as JSON: a number, or null for Python None. -/
def confToJson : Option ℚ → Json
  | some q => Json.num q
  | none => Json.null

/-- One results entry as the JSON object json.dump serializes: the key order
of the run_all dicts, full_text present exactly when the entry has it. -/
def engineResultToJson (r : EngineResult) : Json :=
  Json.obj (("confidence", confToJson r.confidence) ::
    (match r.full_text with
     | some t => [("full_text", Json.str t), ("status", Json.str r.status)]
     | none => [("status", Json.str r.status)]))

/-- export_to_json: None on an empty results dict (nothing written);
otherwise the full_results object with keys image_file, timestamp, models. -/
def export_to_json (image_path now : String)
    (results : List (String × EngineResult)) : Option Json :=
  if results.isEmpty then none
  else some (Json.obj
    [("image_file", Json.str image_path), ("timestamp", Json.str now),
     ("models", Json.obj (results.map fun nr => (nr.1, engineResultToJson nr.2)))])

/-- Decoder for a stored confidence value, inverse of confToJson. -/
def confFromJson : Json → Option (Option ℚ)
  | Json.num q => some (some q)
  | Json.null => some none
  | _ => none

/-- Decoder recovering a results entry from its JSON object. -/
def engineResultFromJson : Json → Option EngineResult
  | Json.obj [("confidence", c), ("full_text", Json.str t), ("status", Json.str s)] =>
    (confFromJson c).map fun conf => ⟨conf, some t, s⟩
  | Json.obj [("confidence", c), ("status", Json.str s)] =>
    (confFromJson c).map fun conf => ⟨conf, none, s⟩
  | _ => none

/-- What print_summary does, observably. The per-model loop formats every
stored confidence with a float format specifier, so a dictionary holding a
None confidence would raise a TypeError there (run_all never hands it one,
see run_all_conf_num); past that loop, either no engine has status success
and the function falls through printing no summary block at all, or it
prints the average over the successful engines and the best model. -/
inductive SummaryOut where
  | warnedNoResults : SummaryOut
  | typeError : SummaryOut
  | printed : Option (ℚ × String × ℚ) → SummaryOut
deriving DecidableEq

/-- Python max over (name, confidence) pairs keyed by confidence: a later
element replaces the current best only when strictly greater, so the first
maximal element wins. -/
def bestModel (x : String × ℚ) (xs : List (String × ℚ)) : String × ℚ :=
  xs.foldl (fun b y => if b.2 < y.2 then y else b) x

/-- print_summary from BestOCR.py over the in-memory results. -/
def print_summary (results : List (String × EngineResult)) : SummaryOut :=
  match results with
  | [] => SummaryOut.warnedNoResults
  | _ =>
    if results.any (fun nr => nr.2.confidence.isNone) then SummaryOut.typeError
    else
      match results.filter (fun nr => nr.2.status == "success") with
      | [] => SummaryOut.printed none
      | s :: ss =>
        let p0 := (s.1, s.2.confidence.getD 0)
        let ps := ss.map fun nr => (nr.1, nr.2.confidence.getD 0)
        let avg := ((p0 :: ps).map (·.2)).sum / (((p0 :: ps).length : ℚ))
        let b := bestModel p0 ps
        SummaryOut.printed (some (avg, b.1, b.2))

/-- Modelled from the spec: summarize computed only over entries with status
success, reporting no successful engine when zero engines succeeded. Stated
for comparison with print_summary, which the source gives no such report. -/
def summarize_spec (results : List (String × EngineResult)) :
    Except String (ℚ × String × ℚ) :=
  match results.filter (fun nr => nr.2.status == "success") with
  | [] => Except.error "no successful engine"
  | s :: ss =>
    let p0 := (s.1, s.2.confidence.getD 0)
    let ps := ss.map fun nr => (nr.1, nr.2.confidence.getD 0)
    let b := bestModel p0 ps
    Except.ok (mean ((p0 :: ps).map (·.2)), b.1, b.2)

/-! ## Auth dependency (src/deps.py)

The jose/httpx library calls are inputs: extracting the kid from the token
header, fetching the JWKS document from a URL, and decoding the token against
a key (ES256 signature and audience check). The header and decode inputs
either return a value or raise one of the exception classes the except clause
of get_current_user catches (JWTError, JWKError, httpx.HTTPError), modelled
as a message. The JWKS fetch distinguishes three outcomes because its
failures travel on two different channels: an httpx.HTTPError from the
request or raise_for_status is caught and becomes HTTP 401, while a
response body that fails response.json() or lacks the expected keys/kid
entries raises JSONDecodeError/KeyError, which nothing in deps.py catches. -/

/-- One entry of the JWKS key list homing a key id and the key material. -/
structure Jwk where
  kid : String
  key : String
deriving DecidableEq

/-- How a get_current_user call ends when it does not return a payload: an
HTTPException with status 401, or an exception that no handler in deps.py
catches (the JSONDecodeError/KeyError of a malformed JWKS document), which
propagates past the dependency. -/
inductive AuthErr where
  | http401 : String → AuthErr
  | uncaughtExc : String → AuthErr
deriving DecidableEq

/-- Outcome of the JWKS fetch inside get_public_key, covering request,
raise_for_status, response.json() and the keys/kid dictionary accesses:
a parsed list of kid-bearing keys, an httpx.HTTPError (transport failure or
error status), or an uncaught parse failure (malformed JSON body, missing
keys entry, or an entry without a kid reached during the scan). -/
inductive JwksResult where
  | ok : List Jwk → JwksResult
  | httpError : String → JwksResult
  | parseError : String → JwksResult
deriving DecidableEq

/-- Outcome of get_public_key: the matching key, or a raised exception — an
httpx error (caught later by the except clause of get_current_user), an
uncaught JSONDecodeError/KeyError, or the HTTPException for a missing key
id, which that except clause does not catch either but is already a 401. -/
inductive KeyErr where
  | lib : String → KeyErr
  | uncaughtExc : String → KeyErr
  | keyNotFound : KeyErr
deriving DecidableEq

/-- get_public_key: GET supabase_url/auth/v1/jwks, parse it, then the first
key whose kid matches, else HTTPException 401 with detail Public key not
found. -/
def get_public_key (fetchJwks : String → JwksResult)
    (kid supabase_url : String) : Except KeyErr Jwk :=
  match fetchJwks (supabase_url ++ "/auth/v1/jwks") with
  | JwksResult.httpError e => Except.error (KeyErr.lib e)
  | JwksResult.parseError e => Except.error (KeyErr.uncaughtExc e)
  | JwksResult.ok keys =>
    match keys.find? (fun k => k.kid == kid) with
    | some k => Except.ok k
    | none => Except.error KeyErr.keyNotFound

/-- The environment read by get_current_user: SUPABASE_URL and DEBUG_TOKEN. -/
structure AuthEnv where
  supabase_url : Option String
  debug_token_env : Option String
deriving DecidableEq

/-- os.getenv with the literal fallback used in the source. -/
def debugToken (env : AuthEnv) : String :=
  env.debug_token_env.getD "super-secret-debug-token"

/-- Python truthiness of an optional string: None and the empty string are
falsy. -/
def pyTruthy : Option String → Bool
  | none => false
  | some s => s ≠ ""

/-- The payload the debug branch returns. -/
def debugUser : List (String × String) := [("sub", "debug-user"), ("email", "you@localhost")]

/-- get_current_user from deps.py. credentials is the presented bearer token
when one arrived. headerKid models jwt.get_unverified_header(token).get(kid):
an exception message for a malformed token, or the optional kid claim; the
source then runs if not kid, so a missing kid and an empty-string kid both
raise JWTError (caught, 401) before any fetch. decode models jwt.decode with
the given key, ES256, audience authenticated: an exception message or the
verified payload (an association list of claims, in which iss is looked up). -/
def get_current_user (env : AuthEnv) (credentials : Option String)
    (headerKid : String → Except String (Option String))
    (fetchJwks : String → JwksResult)
    (decode : String → Jwk → Except String (List (String × String))) :
    Except AuthErr (List (String × String)) :=
  if (match credentials with
      | some t => t == debugToken env
      | none => false) then
    Except.ok debugUser
  else if ¬ pyTruthy env.supabase_url ∨ credentials = none then
    Except.error (AuthErr.http401 "Missing token or Supabase URL")
  else
    match credentials, env.supabase_url with
    | some token, some url =>
      (match headerKid token with
       | Except.error _ => Except.error (AuthErr.http401 "Invalid or expired token")
       | Except.ok none => Except.error (AuthErr.http401 "Invalid or expired token")
       | Except.ok (some kid) =>
         if kid = "" then Except.error (AuthErr.http401 "Invalid or expired token")
         else
           match get_public_key fetchJwks kid url with
           | Except.error KeyErr.keyNotFound =>
             Except.error (AuthErr.http401 "Public key not found")
           | Except.error (KeyErr.lib _) =>
             Except.error (AuthErr.http401 "Invalid or expired token")
           | Except.error (KeyErr.uncaughtExc e) =>
             Except.error (AuthErr.uncaughtExc e)
           | Except.ok key =>
             match decode token key with
             | Except.error _ => Except.error (AuthErr.http401 "Invalid or expired token")
             | Except.ok payload =>
               if payload.lookup "iss" == some (url ++ "/auth/v1/") then Except.ok payload
               else Except.error (AuthErr.http401 "Invalid or expired token"))
    | _, _ => Except.error (AuthErr.http401 "Missing token or Supabase URL")

/-! ## Concrete inputs used by witnesses and counterexamples -/

/-- A single detected PyTesseract token with the native-scale confidence 96. -/
def tessRowHello : TessRow :=
  { level := 5, page_num := 1, block_num := 1, par_num := 1, line_num := 1, word_num := 1
    left := 0, top := 0, width := 10, height := 10, conf := 96, text := "HELLO" }

/-- A Vision annotation with no pages: the API call succeeded but collected
no confidence values. -/
def emptyAnnot : TextAnnot := { pages := [], text := "" }

/-- An in-memory results dict of a run where all three engines failed. -/
def allFailedResults : List (String × EngineResult) :=
  [("GoogleCloudVision", failEntry "no credentials"),
   ("EasyOCR", failEntry "no model"),
   ("PyTesseract", failEntry "PyTesseract returned None")]

/-- A results dict with exactly one successful engine. -/
def mixedResults : List (String × EngineResult) :=
  [("GoogleCloudVision", failEntry "no credentials"),
   ("EasyOCR", { confidence := some (1/2), full_text := some "hi", status := "success" }),
   ("PyTesseract", failEntry "PyTesseract returned None")]

/-- A 150 character text, longer than the 100 character preview. -/
def longText : String := String.mk (List.replicate 150 'a')

/-- A successful entry holding the 150 character text. -/
def longEntry : String × EngineResult :=
  ("EasyOCR", { confidence := some (1/2), full_text := some longText, status := "success" })

/-- A results dict whose successful entry has a 150 character text. -/
def longResults : List (String × EngineResult) := [longEntry]

/-- A Vision annotation with one empty page carrying confidence 9/10. -/
def oneWordAnnot : TextAnnot :=
  { pages := [{ blocks := [], confidence := 9/10 }], text := "hi" }

/-- One EasyOCR detection with full confidence. -/
def easyDet : EasyDetection := { bbox := [], text := "hi", confidence := 1 }

/-- Environment with a configured issuer URL and the default debug token. -/
def envX : AuthEnv := { supabase_url := some "https://x.co", debug_token_env := none }

/-- Header oracle extracting the kid k1 from any token. -/
def hkX : String → Except String (Option String) := fun _ => Except.ok (some "k1")

/-- Header oracle extracting an empty-string kid, falsy in Python. -/
def hkEmpty : String → Except String (Option String) := fun _ => Except.ok (some "")

/-- JWKS oracle serving one key with kid k1. -/
def fjX : String → JwksResult := fun _ => JwksResult.ok [{ kid := "k1", key := "pub" }]

/-- JWKS oracle serving an empty key set. -/
def fjEmpty : String → JwksResult := fun _ => JwksResult.ok []

/-- JWKS oracle whose 200 response body is not valid JSON, so
response.json() raises an uncaught JSONDecodeError. -/
def fjParseBad : String → JwksResult :=
  fun _ => JwksResult.parseError "Expecting value: line 1 column 1 (char 0)"

/-- Decode oracle accepting any token with a matching issuer claim. -/
def dcX : String → Jwk → Except String (List (String × String)) :=
  fun _ _ => Except.ok [("iss", "https://x.co/auth/v1/"), ("sub", "u1")]

/-! ## Helper lemmas -/

theorem bestModel_cons (x y : String × ℚ) (ys : List (String × ℚ)) :
    bestModel x (y :: ys) = bestModel (if x.2 < y.2 then y else x) ys := rfl

theorem bestModel_mem : ∀ (xs : List (String × ℚ)) (x : String × ℚ),
    bestModel x xs ∈ x :: xs
  | [], x => by simp [bestModel]
  | y :: ys, x => by
    rw [bestModel_cons]
    have ih := bestModel_mem ys (if x.2 < y.2 then y else x)
    rcases List.mem_cons.mp ih with h | h
    · rw [h]
      split
      · simp
      · simp
    · simp [List.mem_cons.mpr (Or.inr h)]

theorem le_bestModel : ∀ (xs : List (String × ℚ)) (x : String × ℚ),
    x.2 ≤ (bestModel x xs).2 ∧ ∀ p ∈ xs, p.2 ≤ (bestModel x xs).2
  | [], x => by simp [bestModel]
  | y :: ys, x => by
    rw [bestModel_cons]
    have ih := le_bestModel ys (if x.2 < y.2 then y else x)
    constructor
    · refine le_trans ?_ ih.1
      split
      · exact le_of_lt (by assumption)
      · exact le_refl _
    · intro p hp
      rcases List.mem_cons.mp hp with h | h
      · refine le_trans ?_ ih.1
        subst h
        split
        · exact le_refl _
        · exact le_of_not_lt (by assumption)
      · exact ih.2 p h

theorem engineResult_json_roundtrip (r : EngineResult) :
    engineResultFromJson (engineResultToJson r) = some r := by
  rcases r with ⟨c, ft, s⟩
  cases ft <;> cases c <;>
    simp [engineResultToJson, engineResultFromJson, confToJson, confFromJson]

theorem string_take_of_length_le (t : String) (n : Nat) (h : t.length ≤ n) :
    t.take n = t := by
  apply String.ext
  rw [String.data_take]
  exact List.take_of_length_le h

theorem string_length_take_of_le (t : String) (n : Nat) (h : n ≤ t.length) :
    (t.take n).length = n := by
  show (t.take n).data.length = n
  rw [String.data_take, List.length_take]
  exact Nat.min_eq_left h

theorem gcvEntry_shape (r : GoogleCloudVisionAPI.GCVResult) :
    ((gcvEntry r).status = "success" ∧ ∃ t, (gcvEntry r).full_text = some t) ∨
    ((gcvEntry r).confidence = some 0 ∧ (gcvEntry r).full_text = none ∧
      ∃ m, (gcvEntry r).status = "error: " ++ m) := by
  rcases r with ⟨ft, avg⟩
  cases avg with
  | none =>
    exact Or.inr ⟨rfl, rfl, "unsupported format string passed to NoneType.__format__", rfl⟩
  | some c => exact Or.inl ⟨rfl, _, rfl⟩

theorem gcvEntry_conf_num (r : GoogleCloudVisionAPI.GCVResult) :
    (gcvEntry r).confidence ≠ none := by
  rcases r with ⟨ft, avg⟩
  cases avg with
  | none => simp [gcvEntry, failEntry]
  | some c => simp [gcvEntry]

theorem run_all_shape (gcv : Except String TextAnnot)
    (easy : Except String (List EasyDetection)) (tess : Except String (List TessRow)) :
    ∀ nr ∈ run_all gcv easy tess,
      (nr.2.status = "success" ∧ ∃ t, nr.2.full_text = some t) ∨
      (nr.2.confidence = some 0 ∧ nr.2.full_text = none ∧
        ∃ m, nr.2.status = "error: " ++ m) := by
  intro nr hmem
  simp only [run_all, List.mem_cons, List.not_mem_nil, or_false] at hmem
  rcases hmem with rfl | rfl | rfl
  · cases gcv with
    | ok a => exact gcvEntry_shape (GoogleCloudVisionAPI.detect_document a)
    | error e => exact Or.inr ⟨rfl, rfl, e, rfl⟩
  · cases easy with
    | ok dets => exact Or.inl ⟨rfl, _, rfl⟩
    | error e => exact Or.inr ⟨rfl, rfl, e, rfl⟩
  · cases h : PyTesseractOCR.process_image_with_confidence tess 0 with
    | none => exact Or.inr ⟨rfl, rfl, "PyTesseract returned None", rfl⟩
    | some r => exact Or.inl ⟨rfl, _, rfl⟩

theorem run_all_ne_nil (gcv : Except String TextAnnot)
    (easy : Except String (List EasyDetection)) (tess : Except String (List TessRow)) :
    run_all gcv easy tess ≠ [] := by
  simp only [run_all]
  exact List.cons_ne_nil _ _

theorem run_all_conf_num (gcv : Except String TextAnnot)
    (easy : Except String (List EasyDetection)) (tess : Except String (List TessRow)) :
    ∀ nr ∈ run_all gcv easy tess, nr.2.confidence ≠ none := by
  intro nr hmem
  simp only [run_all, List.mem_cons, List.not_mem_nil, or_false] at hmem
  rcases hmem with rfl | rfl | rfl
  · cases gcv with
    | ok a => exact gcvEntry_conf_num (GoogleCloudVisionAPI.detect_document a)
    | error e => simp [failEntry]
  · cases easy with
    | ok dets => simp
    | error e => simp [failEntry]
  · cases h : PyTesseractOCR.process_image_with_confidence tess 0 with
    | none => simp [failEntry]
    | some r => simp

/-! ## Claim theorems -/

/-- Claim C1: for every combination of per-engine outcomes (value or raised
exception), run_all returns exactly one entry per configured engine, in the
fixed order GoogleCloudVision, EasyOCR, PyTesseract; a raised exception never
prevents the remaining adapters from being invoked and recorded. -/
theorem run_all_one_entry_per_engine (gcv : Except String TextAnnot)
    (easy : Except String (List EasyDetection)) (tess : Except String (List TessRow)) :
    (run_all gcv easy tess).map Prod.fst =
      ["GoogleCloudVision", "EasyOCR", "PyTesseract"] := rfl

/-- Claim C8: with an empty results mapping both export operations return the
null result and produce no file content, and the two behave identically. -/
theorem export_empty_results_yields_nothing (image ts : String) :
    export_to_csv image [] ts = none ∧ export_to_json image ts [] = none :=
  ⟨rfl, rfl⟩

/-- Claim C5: every exception a per-engine block of run_all raises is caught
there and recorded as a failure entry for that engine with confidence exactly
0.0 and a status carrying the reason; run_all always returns (no engine-level
exception escapes), and every non-success entry has this failure shape. -/
theorem run_all_records_failures (gcv : Except String TextAnnot)
    (easy : Except String (List EasyDetection)) (tess : Except String (List TessRow)) :
    (∀ e, gcv = Except.error e →
      (run_all gcv easy tess).lookup "GoogleCloudVision" = some (failEntry e)) ∧
    (∀ e, easy = Except.error e →
      (run_all gcv easy tess).lookup "EasyOCR" = some (failEntry e)) ∧
    (∀ e, tess = Except.error e →
      (run_all gcv easy tess).lookup "PyTesseract" =
        some (failEntry "PyTesseract returned None")) ∧
    (∀ nr ∈ run_all gcv easy tess, nr.2.status ≠ "success" →
      nr.2.confidence = some 0 ∧ nr.2.full_text = none ∧
        ∃ m, nr.2.status = "error: " ++ m) := by
  refine ⟨?_, ?_, ?_, ?_⟩
  · rintro e rfl
    simp [run_all, List.lookup]
  · rintro e rfl
    simp [run_all, List.lookup]
  · rintro e rfl
    simp [run_all, List.lookup, PyTesseractOCR.process_image_with_confidence]
  · intro nr hmem hstat
    rcases run_all_shape gcv easy tess nr hmem with h | h
    · exact absurd h.1 hstat
    · exact h

/-- Witness for C5 at concrete raised exceptions. -/
theorem run_all_records_failures_witness :
    (run_all (Except.error "boom") (Except.error "net down")
        (Except.error "no binary")).lookup "GoogleCloudVision" =
      some (failEntry "boom") ∧
    (run_all (Except.error "boom") (Except.error "net down")
        (Except.error "no binary")).lookup "EasyOCR" = some (failEntry "net down") ∧
    (run_all (Except.error "boom") (Except.error "net down")
        (Except.error "no binary")).lookup "PyTesseract" =
      some (failEntry "PyTesseract returned None") ∧
    (failEntry "boom").confidence = some 0 ∧ (failEntry "boom").full_text = none ∧
      ∃ m, (failEntry "boom").status = "error: " ++ m := by
  refine ⟨(run_all_records_failures _ _ _).1 "boom" rfl,
    (run_all_records_failures _ _ _).2.1 "net down" rfl,
    (run_all_records_failures _ _ _).2.2.1 "no binary" rfl, ?_⟩
  exact (run_all_records_failures (Except.error "boom") (Except.error "net down")
    (Except.error "no binary")).2.2.2 ("GoogleCloudVision", failEntry "boom")
    (by decide) (by decide)

/-- Claim C2 evidence: the code does not divide the PyTesseract average by
100. A run whose only PyTesseract token has the native confidence 96 stores
and exports confidence 96, which is outside the interval from 0 to 1. -/
theorem pytesseract_confidence_exported_unnormalized :
    (export_to_csv "sample.jpg"
        (run_all (Except.error "no credentials") (Except.error "no model")
          (Except.ok [tessRowHello])) "2026-10-12T00:00:00").map
      (List.map fun row => (row.ocr_model, row.confidence_score)) =
      some [("GoogleCloudVision", some 0), ("EasyOCR", some 0),
        ("PyTesseract", some 96)] ∧
    ¬ (96 : ℚ) ≤ 1 := by
  have h1 : PyTesseractOCR.keptRows [tessRowHello] 0 = [tessRowHello] := by decide
  have h2 : PyTesseractOCR.process_image_with_confidence (Except.ok [tessRowHello]) 0 =
      some { data := [tessRowHello], average_confidence := 96 } := by
    simp only [PyTesseractOCR.process_image_with_confidence, h1]
    norm_num [mean, tessRowHello]
  constructor
  · simp only [run_all, h2]
    decide
  · norm_num

/-- Claim C3 counterexample: a Google Cloud Vision call that succeeds while
collecting zero confidence values makes detect_document report a None
average; the comparator then logs it with a float format specifier, the
f-string raises TypeError, and the except branch records an error entry for
the engine — not a success with confidence 0.0. -/
theorem gcv_zero_detections_recorded_as_error :
    (GoogleCloudVisionAPI.detect_document emptyAnnot).average_confidence = none ∧
    (run_all (Except.ok emptyAnnot) (Except.error "x")
        (Except.error "y")).lookup "GoogleCloudVision" =
      some (failEntry "unsupported format string passed to NoneType.__format__") ∧
    (failEntry "unsupported format string passed to NoneType.__format__").status ≠
      "success" := by
  refine ⟨rfl, by decide, by decide⟩

/-- Claim C3 amended: EasyOCR and PyTesseract yield confidence exactly 0.0 on
zero (surviving) detections and otherwise the arithmetic mean of the
confidence values they kept; Google Cloud Vision reports a None average on
an empty collection, upon which run_all records an error entry (the logging
f-string TypeError), not a success with 0.0, and otherwise the mean of every
confidence collected over the annotation tree, recorded as a success. -/
theorem adapter_confidence_aggregation (a : TextAnnot) (dets : List EasyDetection)
    (rows : List TessRow) :
    (EasyOCRProcessor.process_image []).1 = 0 ∧
    (dets ≠ [] → (EasyOCRProcessor.process_image dets).1 =
      mean (dets.map (·.confidence))) ∧
    (PyTesseractOCR.keptRows rows 0 = [] →
      (PyTesseractOCR.process_image_with_confidence (Except.ok rows) 0).map
        (·.average_confidence) = some 0) ∧
    (PyTesseractOCR.keptRows rows 0 ≠ [] →
      (PyTesseractOCR.process_image_with_confidence (Except.ok rows) 0).map
        (·.average_confidence) =
        some (mean ((PyTesseractOCR.keptRows rows 0).map (·.conf)))) ∧
    (GoogleCloudVisionAPI.annotConfs a = [] →
      (GoogleCloudVisionAPI.detect_document a).average_confidence = none) ∧
    (GoogleCloudVisionAPI.annotConfs a ≠ [] →
      (GoogleCloudVisionAPI.detect_document a).average_confidence =
        some (mean (GoogleCloudVisionAPI.annotConfs a))) ∧
    (GoogleCloudVisionAPI.annotConfs a = [] →
      ∀ e2 t2, (run_all (Except.ok a) e2 t2).lookup "GoogleCloudVision" =
        some (failEntry "unsupported format string passed to NoneType.__format__")) ∧
    (GoogleCloudVisionAPI.annotConfs a ≠ [] →
      ∀ e2 t2, (run_all (Except.ok a) e2 t2).lookup "GoogleCloudVision" =
        some
          { confidence := some (mean (GoogleCloudVisionAPI.annotConfs a))
            full_text := some a.text
            status := "success" }) := by
  refine ⟨rfl, ?_, ?_, ?_, ?_, ?_, ?_, ?_⟩
  · intro h
    simp [EasyOCRProcessor.process_image, List.isEmpty_iff, h]
  · intro h
    simp [PyTesseractOCR.process_image_with_confidence, List.isEmpty_iff, h]
  · intro h
    simp [PyTesseractOCR.process_image_with_confidence, List.isEmpty_iff, h]
  · intro h
    simp [GoogleCloudVisionAPI.detect_document, List.isEmpty_iff, h]
  · intro h
    simp [GoogleCloudVisionAPI.detect_document, List.isEmpty_iff, h]
  · intro h e2 t2
    simp [run_all, List.lookup, gcvEntry, GoogleCloudVisionAPI.detect_document,
      List.isEmpty_iff, h]
  · intro h e2 t2
    simp [run_all, List.lookup, gcvEntry, GoogleCloudVisionAPI.detect_document,
      List.isEmpty_iff, h]

/-- Witness for the amended C3 at concrete inputs for each branch. -/
theorem adapter_confidence_aggregation_witness :
    ((EasyOCRProcessor.process_image
        [{ bbox := [], text := "hi", confidence := 1/2 }]).1 =
      mean [1/2]) ∧
    ((PyTesseractOCR.process_image_with_confidence (Except.ok []) 0).map
        (·.average_confidence) = some 0) ∧
    ((PyTesseractOCR.process_image_with_confidence (Except.ok [tessRowHello]) 0).map
        (·.average_confidence) = some (mean [96])) ∧
    ((GoogleCloudVisionAPI.detect_document emptyAnnot).average_confidence = none) ∧
    ((run_all (Except.ok emptyAnnot) (Except.error "x") (Except.error "y")).lookup
        "GoogleCloudVision" =
      some (failEntry "unsupported format string passed to NoneType.__format__")) ∧
    ((run_all (Except.ok oneWordAnnot) (Except.error "x") (Except.error "y")).lookup
        "GoogleCloudVision" =
      some
        { confidence := some (mean (GoogleCloudVisionAPI.annotConfs oneWordAnnot))
          full_text := some oneWordAnnot.text
          status := "success" }) := by
  refine ⟨?_, ?_, ?_, ?_, ?_, ?_⟩
  · have h := (adapter_confidence_aggregation emptyAnnot
      [{ bbox := [], text := "hi", confidence := 1/2 }] []).2.1 (by decide)
    simpa using h
  · exact (adapter_confidence_aggregation emptyAnnot [] []).2.2.1 (by decide)
  · have h := (adapter_confidence_aggregation emptyAnnot [] [tessRowHello]).2.2.2.1
      (by decide)
    have h1 : PyTesseractOCR.keptRows [tessRowHello] 0 = [tessRowHello] := by decide
    rw [h1] at h
    simpa [tessRowHello] using h
  · exact (adapter_confidence_aggregation emptyAnnot [] []).2.2.2.2.1 (by decide)
  · exact (adapter_confidence_aggregation emptyAnnot [] []).2.2.2.2.2.2.1 (by decide)
      (Except.error "x") (Except.error "y")
  · exact (adapter_confidence_aggregation oneWordAnnot [] []).2.2.2.2.2.2.2 (by decide)
      (Except.error "x") (Except.error "y")

/-- Claim C4 counterexample: on a run where all three engines failed,
print_summary emits the per-model lines and then silently skips the summary
block: it produces no report at all, while the specification-side summarize
would report no successful engine. No division is performed. -/
theorem print_summary_silent_on_total_failure :
    print_summary allFailedResults = SummaryOut.printed none ∧
    summarize_spec allFailedResults = Except.error "no successful engine" := by
  constructor
  · decide
  · rfl

/-- Helper: the print_summary statistics over any results dictionary whose
stored confidences are all numeric, which run_all_conf_num shows holds for
every dictionary run_all produces. -/
theorem summary_stats_of_numeric (results : List (String × EngineResult))
    (hne : results ≠ [])
    (hnum : ∀ nr ∈ results, nr.2.confidence ≠ none) :
    (results.filter (fun nr => nr.2.status == "success") = [] →
      print_summary results = SummaryOut.printed none) ∧
    (∀ avg best bconf,
      print_summary results = SummaryOut.printed (some (avg, best, bconf)) →
      avg = mean ((results.filter (fun nr => nr.2.status == "success")).map
        (fun nr => nr.2.confidence.getD 0)) ∧
      (best, bconf) ∈ (results.filter (fun nr => nr.2.status == "success")).map
        (fun nr => (nr.1, nr.2.confidence.getD 0)) ∧
      ∀ p ∈ (results.filter (fun nr => nr.2.status == "success")).map
        (fun nr => (nr.1, nr.2.confidence.getD 0)), p.2 ≤ bconf) := by
  have hany : results.any (fun nr => nr.2.confidence.isNone) = false := by
    rw [List.any_eq_false]
    intro x hx
    simpa [Option.isNone_iff_eq_none] using hnum x hx
  obtain ⟨r, rs, rfl⟩ := List.exists_cons_of_ne_nil hne
  have hps : print_summary (r :: rs) =
      match (r :: rs).filter (fun nr => nr.2.status == "success") with
      | [] => SummaryOut.printed none
      | s :: ss =>
        let p0 := (s.1, s.2.confidence.getD 0)
        let ps := ss.map fun nr => (nr.1, nr.2.confidence.getD 0)
        let avg := ((p0 :: ps).map (·.2)).sum / (((p0 :: ps).length : ℚ))
        let b := bestModel p0 ps
        SummaryOut.printed (some (avg, b.1, b.2)) := by
    simp only [print_summary, hany, Bool.false_eq_true, if_false]
  constructor
  · intro hf
    rw [hps, hf]
  · intro avg best bconf h
    rw [hps] at h
    cases hf : (r :: rs).filter (fun nr => nr.2.status == "success") with
    | nil => rw [hf] at h; simp at h
    | cons s ss =>
      rw [hf] at h
      simp only [SummaryOut.printed.injEq, Option.some.injEq, Prod.mk.injEq] at h
      obtain ⟨h1, h2, h3⟩ := h
      refine ⟨?_, ?_, ?_⟩
      · rw [← h1]
        simp [mean, List.map_map, Function.comp_def, List.length_map, List.map_cons]
      · have hm := bestModel_mem (ss.map fun nr => (nr.1, nr.2.confidence.getD 0))
          (s.1, s.2.confidence.getD 0)
        rw [List.map_cons]
        have : (best, bconf) = bestModel (s.1, s.2.confidence.getD 0)
            (ss.map fun nr => (nr.1, nr.2.confidence.getD 0)) := by
          rw [← h2, ← h3]
        rw [this]
        exact hm
      · intro p hp
        have hb := le_bestModel (ss.map fun nr => (nr.1, nr.2.confidence.getD 0))
          (s.1, s.2.confidence.getD 0)
        rw [List.map_cons] at hp
        rcases List.mem_cons.mp hp with rfl | hp2
        · rw [← h3]
          exact hb.1
        · rw [← h3]
          exact hb.2 p hp2

/-- Claim C4 amended: when zero engines of a run have status success,
print_summary prints no summary block at all — no report and no division;
when at least one engine of the run succeeded, the printed average is the
mean of the confidences of exactly the successful engines and the best model
is a successful engine of maximal confidence (the first such on ties). -/
theorem print_summary_success_stats (gcv : Except String TextAnnot)
    (easy : Except String (List EasyDetection)) (tess : Except String (List TessRow)) :
    ((run_all gcv easy tess).filter (fun nr => nr.2.status == "success") = [] →
      print_summary (run_all gcv easy tess) = SummaryOut.printed none) ∧
    (∀ avg best bconf,
      print_summary (run_all gcv easy tess) =
        SummaryOut.printed (some (avg, best, bconf)) →
      avg = mean (((run_all gcv easy tess).filter
          (fun nr => nr.2.status == "success")).map
        (fun nr => nr.2.confidence.getD 0)) ∧
      (best, bconf) ∈ ((run_all gcv easy tess).filter
          (fun nr => nr.2.status == "success")).map
        (fun nr => (nr.1, nr.2.confidence.getD 0)) ∧
      ∀ p ∈ ((run_all gcv easy tess).filter
          (fun nr => nr.2.status == "success")).map
        (fun nr => (nr.1, nr.2.confidence.getD 0)), p.2 ≤ bconf) :=
  summary_stats_of_numeric (run_all gcv easy tess) (run_all_ne_nil gcv easy tess)
    (run_all_conf_num gcv easy tess)

/-- Witness for the amended C4: a run with exactly one successful engine
(EasyOCR, one detection of confidence 1.0); the summary prints average 1 and
best model EasyOCR, matching the mean and argmax over the successes. -/
theorem print_summary_success_stats_witness :
    print_summary (run_all (Except.error "no credentials") (Except.ok [easyDet])
        (Except.error "gone")) = SummaryOut.printed (some (1, "EasyOCR", 1)) ∧
    ((1 : ℚ) = mean (((run_all (Except.error "no credentials") (Except.ok [easyDet])
          (Except.error "gone")).filter (fun nr => nr.2.status == "success")).map
        (fun nr => nr.2.confidence.getD 0)) ∧
      ("EasyOCR", (1 : ℚ)) ∈ ((run_all (Except.error "no credentials")
          (Except.ok [easyDet]) (Except.error "gone")).filter
          (fun nr => nr.2.status == "success")).map
        (fun nr => (nr.1, nr.2.confidence.getD 0)) ∧
      ∀ p ∈ ((run_all (Except.error "no credentials") (Except.ok [easyDet])
          (Except.error "gone")).filter (fun nr => nr.2.status == "success")).map
        (fun nr => (nr.1, nr.2.confidence.getD 0)), p.2 ≤ (1 : ℚ)) := by
  have hrun : run_all (Except.error "no credentials") (Except.ok [easyDet])
      (Except.error "gone") =
      [("GoogleCloudVision", failEntry "no credentials"),
       ("EasyOCR", { confidence := some 1, full_text := some "hi", status := "success" }),
       ("PyTesseract", failEntry "PyTesseract returned None")] := by
    simp only [run_all, EasyOCRProcessor.process_image,
      PyTesseractOCR.process_image_with_confidence, easyDet]
    norm_num [mean]
    decide
  have hany : ([("GoogleCloudVision", failEntry "no credentials"),
      ("EasyOCR", { confidence := some 1, full_text := some "hi", status := "success" }),
      ("PyTesseract", failEntry "PyTesseract returned None")].any
        fun nr => nr.2.confidence.isNone) = false := by decide
  have hfil : List.filter (fun nr => nr.2.status == "success")
      [("GoogleCloudVision", failEntry "no credentials"),
       ("EasyOCR", { confidence := some 1, full_text := some "hi", status := "success" }),
       ("PyTesseract", failEntry "PyTesseract returned None")] =
      [("EasyOCR",
        { confidence := some 1, full_text := some "hi", status := "success" })] := by
    decide
  have hps : print_summary
      [("GoogleCloudVision", failEntry "no credentials"),
       ("EasyOCR", { confidence := some 1, full_text := some "hi", status := "success" }),
       ("PyTesseract", failEntry "PyTesseract returned None")] =
      SummaryOut.printed (some (1, "EasyOCR", 1)) := by
    simp only [print_summary, hany, Bool.false_eq_true, if_false, hfil]
    norm_num [bestModel]
  have h := (print_summary_success_stats (Except.error "no credentials")
    (Except.ok [easyDet]) (Except.error "gone")).2 1 "EasyOCR" 1
    (by rw [hrun]; exact hps)
  exact ⟨by rw [hrun]; exact hps, h⟩

/-- Claim C6: for a non-empty results mapping the exported JSON value is an
object with keys image_file, timestamp, models, and decoding every model
entry of it recovers the in-memory EngineResult exactly, full untruncated
text and status included. -/
theorem export_to_json_roundtrips (image ts : String)
    (results : List (String × EngineResult)) (h : results ≠ []) :
    export_to_json image ts results =
      some (Json.obj [("image_file", Json.str image), ("timestamp", Json.str ts),
        ("models", Json.obj (results.map fun nr => (nr.1, engineResultToJson nr.2)))]) ∧
    (results.map fun nr => (nr.1, engineResultToJson nr.2)).map
        (fun nj => (nj.1, engineResultFromJson nj.2)) =
      results.map (fun nr => (nr.1, some nr.2)) := by
  constructor
  · simp [export_to_json, List.isEmpty_iff, h]
  · simp [List.map_map, Function.comp, engineResult_json_roundtrip]

/-- Witness for C6 on the mixed run. -/
theorem export_to_json_roundtrips_witness :
    export_to_json "img.png" "t0" mixedResults =
      some (Json.obj [("image_file", Json.str "img.png"), ("timestamp", Json.str "t0"),
        ("models", Json.obj (mixedResults.map fun nr => (nr.1, engineResultToJson nr.2)))]) ∧
    (mixedResults.map fun nr => (nr.1, engineResultToJson nr.2)).map
        (fun nj => (nj.1, engineResultFromJson nj.2)) =
      mixedResults.map (fun nr => (nr.1, some nr.2)) :=
  export_to_json_roundtrips "img.png" "t0" mixedResults (by decide)

/-- Claim C7: for a non-empty results mapping export_to_csv writes one row
per engine under the fixed header; each row carries the in-memory confidence
and status, and its text preview is the first 100 characters of the text when
the text is longer than 100 characters and the text verbatim otherwise. -/
theorem export_to_csv_preview_and_rows (image ts : String)
    (results : List (String × EngineResult)) (h : results ≠ []) :
    csvHeader = ["image_file", "ocr_model", "confidence_score", "status",
      "extracted_text_preview", "timestamp"] ∧
    export_to_csv image results ts = some (results.map (csvRowOf image ts)) ∧
    ∀ nr ∈ results,
      (csvRowOf image ts nr).image_file = image ∧
      (csvRowOf image ts nr).ocr_model = nr.1 ∧
      (csvRowOf image ts nr).confidence_score = nr.2.confidence ∧
      (csvRowOf image ts nr).status = nr.2.status ∧
      (csvRowOf image ts nr).timestamp = ts ∧
      (100 < (nr.2.full_text.getD "").length →
        (csvRowOf image ts nr).extracted_text_preview =
          (nr.2.full_text.getD "").take 100 ∧
        ((csvRowOf image ts nr).extracted_text_preview).length = 100) ∧
      ((nr.2.full_text.getD "").length ≤ 100 →
        (csvRowOf image ts nr).extracted_text_preview = nr.2.full_text.getD "") := by
  refine ⟨rfl, by simp [export_to_csv, List.isEmpty_iff, h], ?_⟩
  intro nr _
  simp only [csvRowOf]
  refine ⟨trivial, trivial, trivial, trivial, trivial, fun hl => ⟨trivial, ?_⟩,
    fun hl => ?_⟩
  · exact string_length_take_of_le (nr.2.full_text.getD "") 100 (le_of_lt hl)
  · exact string_take_of_length_le (nr.2.full_text.getD "") 100 hl

/-- Witness for C7 on the run with a 150 character text: the preview is cut
to exactly 100 characters. -/
theorem export_to_csv_preview_and_rows_witness :
    export_to_csv "img.png" longResults "t0" =
      some (longResults.map (csvRowOf "img.png" "t0")) ∧
    ((csvRowOf "img.png" "t0" longEntry).extracted_text_preview).length = 100 := by
  have h := export_to_csv_preview_and_rows "img.png" "t0" longResults (by decide)
  refine ⟨h.2.1, ?_⟩
  have hm := h.2.2 longEntry (List.mem_singleton.mpr rfl)
  refine (hm.2.2.2.2.2.1 ?_).2
  have hlen : (longEntry.2.full_text.getD "").length = 150 := by
    simp [longEntry, longText, String.length]
  rw [hlen]
  norm_num

/-- Claim C10: every run_all entry is either a success record with keys
confidence, full_text and status success, or a failure record carrying only
confidence 0.0 and a status beginning with error, with no full_text key; so
the CSV export substitutes an empty preview for failed engines and the JSON
export emits failure entries without any text field. -/
theorem run_all_entry_shapes (gcv : Except String TextAnnot)
    (easy : Except String (List EasyDetection)) (tess : Except String (List TessRow))
    (image ts : String) :
    (∀ nr ∈ run_all gcv easy tess,
      (nr.2.status = "success" ∧ ∃ t, nr.2.full_text = some t) ∨
      (nr.2.confidence = some 0 ∧ nr.2.full_text = none ∧
        ∃ m, nr.2.status = "error: " ++ m)) ∧
    (∀ nr ∈ run_all gcv easy tess, nr.2.full_text = none →
      (csvRowOf image ts nr).extracted_text_preview = "" ∧
      engineResultToJson nr.2 =
        Json.obj [("confidence", confToJson nr.2.confidence),
          ("status", Json.str nr.2.status)]) := by
  refine ⟨run_all_shape gcv easy tess, ?_⟩
  intro nr _ hft
  constructor
  · simp only [csvRowOf, hft]
    exact string_take_of_length_le "" 100 (by decide)
  · obtain ⟨name, c, ft, s⟩ := nr
    simp only at hft
    subst hft
    rfl

/-- Witness for C10 at a run whose Google Cloud Vision block raised. -/
theorem run_all_entry_shapes_witness :
    ((("GoogleCloudVision", failEntry "boom") : String × EngineResult).2.status =
        "success" ∧
      ∃ t, (failEntry "boom").full_text = some t) ∨
    ((failEntry "boom").confidence = some 0 ∧ (failEntry "boom").full_text = none ∧
      ∃ m, (failEntry "boom").status = "error: " ++ m) := by
  exact (run_all_entry_shapes (Except.error "boom") (Except.error "x")
    (Except.error "y") "img.png" "t0").1 ("GoogleCloudVision", failEntry "boom")
    (by decide)


/-- Claim C9 counterexample: with a JWKS endpoint whose 200 response body is
not valid JSON, the key-fetch step fails but get_current_user does not raise
HTTP 401: response.json() raises a JSONDecodeError that nothing in deps.py
catches, and the exception propagates past the dependency. -/
theorem get_current_user_jwks_parse_counterexample :
    get_current_user envX (some "tok") hkX fjParseBad dcX =
      Except.error (AuthErr.uncaughtExc "Expecting value: line 1 column 1 (char 0)") ∧
    ∀ d, get_current_user envX (some "tok") hkX fjParseBad dcX ≠
      Except.error (AuthErr.http401 d) := by
  have h0 : get_current_user envX (some "tok") hkX fjParseBad dcX =
      Except.error (AuthErr.uncaughtExc "Expecting value: line 1 column 1 (char 0)") := rfl
  refine ⟨h0, ?_⟩
  intro d h
  rw [h0] at h
  simp at h

/-- Claim C9 amended: the debug token returns the debug payload for every
choice of remote oracles (so no issuer contact and no signature check can
matter); a missing token or falsy issuer URL gives HTTP 401; a non-debug
token succeeds exactly when a non-empty kid is extracted, the fetched remote
key set contains a key with that kid, decoding (ES256 signature and
audience) succeeds and the issuer claim matches; a missing or empty kid, an
HTTP failure of the JWKS request, an unknown kid, a decode failure or a
wrong issuer give HTTP 401 — but a JWKS body that fails parsing raises an
uncaught exception, not HTTP 401. -/
theorem get_current_user_auth (env : AuthEnv) (credentials : Option String)
    (headerKid : String → Except String (Option String))
    (fetchJwks : String → JwksResult)
    (decode : String → Jwk → Except String (List (String × String))) :
    (∀ t, credentials = some t → t = debugToken env →
      get_current_user env credentials headerKid fetchJwks decode =
        Except.ok debugUser) ∧
    (credentials = none →
      get_current_user env credentials headerKid fetchJwks decode =
        Except.error (AuthErr.http401 "Missing token or Supabase URL")) ∧
    (∀ t, credentials = some t → t ≠ debugToken env →
      pyTruthy env.supabase_url = false →
      get_current_user env credentials headerKid fetchJwks decode =
        Except.error (AuthErr.http401 "Missing token or Supabase URL")) ∧
    (∀ t url payload, credentials = some t → t ≠ debugToken env →
      env.supabase_url = some url →
      get_current_user env credentials headerKid fetchJwks decode =
        Except.ok payload →
      ∃ kid keys key, headerKid t = Except.ok (some kid) ∧ kid ≠ "" ∧
        fetchJwks (url ++ "/auth/v1/jwks") = JwksResult.ok keys ∧
        keys.find? (fun k => k.kid == kid) = some key ∧
        decode t key = Except.ok payload ∧
        payload.lookup "iss" = some (url ++ "/auth/v1/")) ∧
    (∀ t url, credentials = some t → t ≠ debugToken env →
      env.supabase_url = some url → url ≠ "" →
      (∀ e, headerKid t = Except.error e →
        get_current_user env credentials headerKid fetchJwks decode =
          Except.error (AuthErr.http401 "Invalid or expired token")) ∧
      (headerKid t = Except.ok none →
        get_current_user env credentials headerKid fetchJwks decode =
          Except.error (AuthErr.http401 "Invalid or expired token")) ∧
      (headerKid t = Except.ok (some "") →
        get_current_user env credentials headerKid fetchJwks decode =
          Except.error (AuthErr.http401 "Invalid or expired token")) ∧
      (∀ kid e, kid ≠ "" → headerKid t = Except.ok (some kid) →
        fetchJwks (url ++ "/auth/v1/jwks") = JwksResult.httpError e →
        get_current_user env credentials headerKid fetchJwks decode =
          Except.error (AuthErr.http401 "Invalid or expired token")) ∧
      (∀ kid e, kid ≠ "" → headerKid t = Except.ok (some kid) →
        fetchJwks (url ++ "/auth/v1/jwks") = JwksResult.parseError e →
        get_current_user env credentials headerKid fetchJwks decode =
          Except.error (AuthErr.uncaughtExc e)) ∧
      (∀ kid keys, kid ≠ "" → headerKid t = Except.ok (some kid) →
        fetchJwks (url ++ "/auth/v1/jwks") = JwksResult.ok keys →
        keys.find? (fun k => k.kid == kid) = none →
        get_current_user env credentials headerKid fetchJwks decode =
          Except.error (AuthErr.http401 "Public key not found")) ∧
      (∀ kid keys key e, kid ≠ "" → headerKid t = Except.ok (some kid) →
        fetchJwks (url ++ "/auth/v1/jwks") = JwksResult.ok keys →
        keys.find? (fun k => k.kid == kid) = some key →
        decode t key = Except.error e →
        get_current_user env credentials headerKid fetchJwks decode =
          Except.error (AuthErr.http401 "Invalid or expired token")) ∧
      (∀ kid keys key payload, kid ≠ "" → headerKid t = Except.ok (some kid) →
        fetchJwks (url ++ "/auth/v1/jwks") = JwksResult.ok keys →
        keys.find? (fun k => k.kid == kid) = some key →
        decode t key = Except.ok payload →
        payload.lookup "iss" ≠ some (url ++ "/auth/v1/") →
        get_current_user env credentials headerKid fetchJwks decode =
          Except.error (AuthErr.http401 "Invalid or expired token"))) := by
  refine ⟨?_, ?_, ?_, ?_, ?_⟩
  · rintro t rfl rfl
    simp [get_current_user]
  · rintro rfl
    simp [get_current_user]
  · rintro t rfl hne hfalse
    have hbeq : (t == debugToken env) = false := beq_eq_false_iff_ne.mpr hne
    simp [get_current_user, hbeq, hfalse]
  · rintro t url payload rfl hne hu hres
    have hbeq : (t == debugToken env) = false := beq_eq_false_iff_ne.mpr hne
    by_cases hurl : url = ""
    · subst hurl
      simp [get_current_user, hbeq, hu, pyTruthy] at hres
    · rw [get_current_user, if_neg (by simp [hbeq]),
        if_neg (by simp [hu, pyTruthy, hurl]), hu] at hres
      cases hk : headerKid t with
      | error e => simp [hk] at hres
      | ok okid =>
        cases okid with
        | none => simp [hk] at hres
        | some kid =>
          by_cases hkid : kid = ""
          · subst hkid
            simp [hk] at hres
          · cases hf : fetchJwks (url ++ "/auth/v1/jwks") with
            | httpError e =>
              have hpub : get_public_key fetchJwks kid url =
                  Except.error (KeyErr.lib e) := by
                simp only [get_public_key, hf]
              simp [hk, hkid, hpub] at hres
            | parseError e =>
              have hpub : get_public_key fetchJwks kid url =
                  Except.error (KeyErr.uncaughtExc e) := by
                simp only [get_public_key, hf]
              simp [hk, hkid, hpub] at hres
            | ok keys =>
              cases hfind : keys.find? (fun k => k.kid == kid) with
              | none =>
                have hpub : get_public_key fetchJwks kid url =
                    Except.error KeyErr.keyNotFound := by
                  simp only [get_public_key, hf, hfind]
                simp [hk, hkid, hpub] at hres
              | some key =>
                have hpub : get_public_key fetchJwks kid url = Except.ok key := by
                  simp only [get_public_key, hf, hfind]
                cases hd : decode t key with
                | error e => simp [hk, hkid, hpub, hd] at hres
                | ok payload2 =>
                  by_cases hiss : payload2.lookup "iss" = some (url ++ "/auth/v1/")
                  · have hissb : (payload2.lookup "iss" ==
                        some (url ++ "/auth/v1/")) = true := beq_iff_eq.mpr hiss
                    have hpp : payload2 = payload := by
                      simpa [hk, hkid, hpub, hd, hissb] using hres
                    subst hpp
                    exact ⟨kid, keys, key, rfl, hkid, rfl, hfind, hd, hiss⟩
                  · have hissb : (payload2.lookup "iss" ==
                        some (url ++ "/auth/v1/")) = false := beq_eq_false_iff_ne.mpr hiss
                    simp [hk, hkid, hpub, hd, hissb] at hres
  · rintro t url rfl hne hu hurl
    have hbeq : (t == debugToken env) = false := beq_eq_false_iff_ne.mpr hne
    refine ⟨?_, ?_, ?_, ?_, ?_, ?_, ?_, ?_⟩
    · intro e hk
      rw [get_current_user, if_neg (by simp [hbeq]),
        if_neg (by simp [hu, pyTruthy, hurl]), hu]
      simp [hk]
    · intro hk
      rw [get_current_user, if_neg (by simp [hbeq]),
        if_neg (by simp [hu, pyTruthy, hurl]), hu]
      simp [hk]
    · intro hk
      rw [get_current_user, if_neg (by simp [hbeq]),
        if_neg (by simp [hu, pyTruthy, hurl]), hu]
      simp [hk]
    · intro kid e hkid hk hf
      have hpub : get_public_key fetchJwks kid url = Except.error (KeyErr.lib e) := by
        simp only [get_public_key, hf]
      rw [get_current_user, if_neg (by simp [hbeq]),
        if_neg (by simp [hu, pyTruthy, hurl]), hu]
      simp [hk, hkid, hpub]
    · intro kid e hkid hk hf
      have hpub : get_public_key fetchJwks kid url =
          Except.error (KeyErr.uncaughtExc e) := by
        simp only [get_public_key, hf]
      rw [get_current_user, if_neg (by simp [hbeq]),
        if_neg (by simp [hu, pyTruthy, hurl]), hu]
      simp [hk, hkid, hpub]
    · intro kid keys hkid hk hf hfind
      have hpub : get_public_key fetchJwks kid url =
          Except.error KeyErr.keyNotFound := by
        simp only [get_public_key, hf, hfind]
      rw [get_current_user, if_neg (by simp [hbeq]),
        if_neg (by simp [hu, pyTruthy, hurl]), hu]
      simp [hk, hkid, hpub]
    · intro kid keys key e hkid hk hf hfind hd
      have hpub : get_public_key fetchJwks kid url = Except.ok key := by
        simp only [get_public_key, hf, hfind]
      rw [get_current_user, if_neg (by simp [hbeq]),
        if_neg (by simp [hu, pyTruthy, hurl]), hu]
      simp [hk, hkid, hpub, hd]
    · intro kid keys key payload hkid hk hf hfind hd hiss
      have hpub : get_public_key fetchJwks kid url = Except.ok key := by
        simp only [get_public_key, hf, hfind]
      have hissb : (payload.lookup "iss" ==
          some (url ++ "/auth/v1/")) = false := beq_eq_false_iff_ne.mpr hiss
      rw [get_current_user, if_neg (by simp [hbeq]),
        if_neg (by simp [hu, pyTruthy, hurl]), hu]
      simp [hk, hkid, hpub, hd, hissb]

/-- Witness for the amended C9: the debug token passes with hostile oracles;
missing token and missing URL give 401; a well-formed token verifies end to
end; an empty kid gives 401 without fetching; an unknown kid gives 401 with
the public key not found detail; a parse-failing JWKS body gives the
uncaught exception, not a 401. -/
theorem get_current_user_auth_witness :
    get_current_user envX (some "super-secret-debug-token") hkX fjX dcX =
      Except.ok debugUser ∧
    get_current_user envX none hkX fjX dcX =
      Except.error (AuthErr.http401 "Missing token or Supabase URL") ∧
    get_current_user ⟨none, none⟩ (some "tok") hkX fjX dcX =
      Except.error (AuthErr.http401 "Missing token or Supabase URL") ∧
    (∃ kid keys key, hkX "tok" = Except.ok (some kid) ∧ kid ≠ "" ∧
      fjX ("https://x.co" ++ "/auth/v1/jwks") = JwksResult.ok keys ∧
      keys.find? (fun k => k.kid == kid) = some key ∧
      dcX "tok" key = Except.ok [("iss", "https://x.co/auth/v1/"), ("sub", "u1")] ∧
      ([("iss", "https://x.co/auth/v1/"), ("sub", "u1")] :
        List (String × String)).lookup "iss" = some ("https://x.co" ++ "/auth/v1/")) ∧
    get_current_user envX (some "tok") hkEmpty fjX dcX =
      Except.error (AuthErr.http401 "Invalid or expired token") ∧
    get_current_user envX (some "tok") hkX fjEmpty dcX =
      Except.error (AuthErr.http401 "Public key not found") ∧
    get_current_user envX (some "tok") hkX fjParseBad dcX =
      Except.error (AuthErr.uncaughtExc "Expecting value: line 1 column 1 (char 0)") := by
  refine ⟨?_, ?_, ?_, ?_, ?_, ?_, ?_⟩
  · exact (get_current_user_auth envX (some "super-secret-debug-token")
      hkX fjX dcX).1 "super-secret-debug-token" rfl rfl
  · exact (get_current_user_auth envX none hkX fjX dcX).2.1 rfl
  · exact (get_current_user_auth ⟨none, none⟩ (some "tok") hkX fjX dcX).2.2.1
      "tok" rfl (by decide) rfl
  · exact (get_current_user_auth envX (some "tok") hkX fjX dcX).2.2.2.1
      "tok" "https://x.co" [("iss", "https://x.co/auth/v1/"), ("sub", "u1")]
      rfl (by decide) rfl (by rfl)
  · exact ((get_current_user_auth envX (some "tok") hkEmpty fjX dcX).2.2.2.2
      "tok" "https://x.co" rfl (by decide) rfl (by decide)).2.2.1 rfl
  · exact ((get_current_user_auth envX (some "tok") hkX fjEmpty dcX).2.2.2.2
      "tok" "https://x.co" rfl (by decide) rfl (by decide)).2.2.2.2.2.1
      "k1" [] (by decide) rfl rfl rfl
  · exact ((get_current_user_auth envX (some "tok") hkX fjParseBad dcX).2.2.2.2
      "tok" "https://x.co" rfl (by decide) rfl (by decide)).2.2.2.2.1
      "k1" "Expecting value: line 1 column 1 (char 0)" (by decide) rfl rfl
